import Mathlib

/-!
Verification of the NUT (Network UPS Tools) Prometheus exporter
(`prometheus_nut_exporter.py`).

The embedding below mirrors the Python source.  A device-state snapshot
(a Python dict from string keys to string values) is modelled as an
association list with unique keys; dict lookup is first-match lookup.

`collect` in the source is a generator.  All four mandatory key accesses
(`device.mfr`, `device.model`, `device.serial` inside the `info.add_metric`
argument list, then `ups.status`) are executed before the first `yield`
statement, so a missing mandatory key raises before any record is produced.
The `Except` result type of the embedded `collect` therefore models the
generator faithfully: an error means the consumer received no records.
-/

set_option autoImplicit false

namespace NutExporter

/-- One entry of the static `METRICS` catalog: optional unit and help text. -/
structure CatalogEntry where
  unit : Option String
  help : String
  deriving DecidableEq, Repr

/-- The static `METRICS` table of the source, in source order.
Units and help strings are carried verbatim (including the stray quote
characters in the `device.uptime` unit and the `ertz` typo). -/
def METRICS : List (String × CatalogEntry) := [
  ("device.uptime", ⟨some "\x27seconds\x27", "Device uptime"⟩),
  ("ups.temperature", ⟨some "celsius", "UPS temperature"⟩),
  ("ups.load", ⟨some "percent", "Load on UPS"⟩),
  ("ups.load.high", ⟨some "percent", "Load when UPS switches to overload condition"⟩),
  ("ups.efficiency", ⟨some "percent", "Efficiency of the UPS (ratio of the output current on the input current)"⟩),
  ("ups.power", ⟨some "voltamperes", "Current value of apparent power"⟩),
  ("ups.power.nominal", ⟨some "voltamperes", "Nominal value of apparent power"⟩),
  ("ups.realpower", ⟨some "watts", "Current value of real power"⟩),
  ("ups.realpower.nominal", ⟨some "watts", "Nominal value of real power"⟩),
  ("input.voltage", ⟨some "volts", "Input voltage"⟩),
  ("input.voltage.maximum", ⟨some "volts", "Maximum incoming voltage seen"⟩),
  ("input.voltage.minimum", ⟨some "volts", "Minimum incoming voltage seen"⟩),
  ("input.voltage.low.warning", ⟨some "volts", "Low warning threshold"⟩),
  ("input.voltage.low.critical", ⟨some "volts", "Low critical threshold"⟩),
  ("input.voltage.high.warning", ⟨some "volts", "High warning threshold"⟩),
  ("input.voltage.high.critical", ⟨some "volts", "High critical threshold"⟩),
  ("input.voltage.nominal", ⟨some "volts", "Nominal input voltage"⟩),
  ("input.transfer.delay", ⟨some "seconds", "Delay before transfer to mains"⟩),
  ("input.transfer.low", ⟨some "volts", "Low voltage transfer point"⟩),
  ("input.transfer.high", ⟨some "volts", "High voltage transfer point"⟩),
  ("input.transfer.low.min", ⟨some "volts", "smallest settable low voltage transfer point"⟩),
  ("input.transfer.low.max", ⟨some "volts", "greatest settable low voltage transfer point"⟩),
  ("input.transfer.high.min", ⟨some "volts", "smallest settable high voltage transfer point"⟩),
  ("input.transfer.high.max", ⟨some "volts", "greatest settable high voltage transfer point"⟩),
  ("input.current", ⟨some "amperes", "Input current"⟩),
  ("input.current.nominal", ⟨some "amperes", "Nominal input current"⟩),
  ("input.current.low.warning", ⟨some "amperes", "Low warning threshold"⟩),
  ("input.current.low.critical", ⟨some "amperes", "Low critical threshold"⟩),
  ("input.current.high.warning", ⟨some "amperes", "High warning threshold"⟩),
  ("input.current.high.critical", ⟨some "amperes", "High critical threshold"⟩),
  ("input.frequency", ⟨some "hertz", "Input line frequency"⟩),
  ("input.frequency.nominal", ⟨some "hertz", "Nominal input line frequency"⟩),
  ("input.frequency.low", ⟨some "hertz", "Input line frequency low"⟩),
  ("input.frequency.high", ⟨some "hertz", "Input line frequency high"⟩),
  ("input.transfer.boost.low", ⟨some "hertz", "Low voltage boosting transfer point"⟩),
  ("input.transfer.boost.high", ⟨some "hertz", "High voltage boosting transfer point"⟩),
  ("input.transfer.trim.low", ⟨some "ertz", "Low voltage trimming transfer point"⟩),
  ("input.transfer.trim.high", ⟨some "hertz", "High voltage trimming transfer point"⟩),
  ("input.load", ⟨some "percent", "Load on (ePDU) input"⟩),
  ("input.realpower", ⟨some "watts", "Current sum value of all (ePDU) phases real power"⟩),
  ("input.power", ⟨some "voltamperes", "Current sum value of all (ePDU) phases apparent power"⟩),
  ("output.voltage", ⟨some "volts", "Output voltage"⟩),
  ("output.voltage.nominal", ⟨some "volts", "Nominal output voltage"⟩),
  ("output.frequency", ⟨some "hertz", "Output frequency"⟩),
  ("output.frequency.nominal", ⟨some "hertz", "Nominal output frequency"⟩),
  ("output.current", ⟨some "amperes", "Output current"⟩),
  ("output.current.nominal", ⟨some "amperes", "Nominal output current"⟩),
  ("battery.charge", ⟨some "percent", "Battery charge"⟩),
  ("battery.charge.low", ⟨some "percent", "Remaining battery level when UPS switches to LB"⟩),
  ("battery.charge.restart", ⟨some "percent", "Minimum battery level for UPS restart after power-off"⟩),
  ("battery.charge.warning", ⟨some "percent", "Battery level when UPS switches to \"Warning\" state"⟩),
  ("battery.voltage", ⟨some "volts", "Battery voltage"⟩),
  ("battery.voltage.nominal", ⟨some "volts", "Nominal battery voltage"⟩),
  ("battery.voltage.low", ⟨some "volts", "Minimum battery voltage, that triggers FSD status"⟩),
  ("battery.voltage.high", ⟨some "volts", "Maximum battery voltage (i.e. battery.charge = 100)"⟩),
  ("battery.capacity", ⟨some "amperehours", "Battery capacity"⟩),
  ("battery.current", ⟨some "amperes", "Battery current"⟩),
  ("battery.current.total", ⟨some "amperes", "Total battery current"⟩),
  ("battery.temperature", ⟨some "celsius", "Battery temperature"⟩),
  ("battery.runtime", ⟨some "seconds", "Battery runtime"⟩),
  ("battery.runtime.low", ⟨some "seconds", "Remaining battery runtime when UPS switches to LB"⟩),
  ("battery.runtime.restart", ⟨some "seconds", "Minimum battery runtime for UPS restart after power-off"⟩),
  ("battery.packs", ⟨none, "Number of battery packs"⟩),
  ("battery.packs.bad", ⟨none, "Number of bad battery packs"⟩)]

/-- Catalog lookup, the Python `var in METRICS` / `METRICS[var]` pair. -/
def metricsLookup (k : String) : Option CatalogEntry :=
  (METRICS.find? (fun p => p.1 == k)).map Prod.snd

/-- A device-state snapshot: the dict returned by `client.list_vars`,
modelled as an association list (dicts have unique keys; theorems that
depend on it take key-uniqueness as a hypothesis). -/
abbrev Snapshot := List (String × String)

/-- Dict lookup `client_vars[k]` (first match). -/
def Snapshot.get? (s : Snapshot) (k : String) : Option String :=
  (s.find? (fun p => p.1 == k)).map Prod.snd

/-- The value of an emitted metric sample: the dedicated info/status records
carry the Python number `1`, catalog records carry the snapshot string
passed verbatim to `GaugeMetricFamily(value=...)`. -/
inductive MetricVal where
  | num (q : Rat)
  | raw (s : String)
  deriving DecidableEq, Repr

/-- Characters stripped by Python `str.strip()`. -/
def isPySpace (c : Char) : Bool :=
  c == ' ' || c == '\t' || c == '\n' || c == '\x0d' || c == '\x0b' || c == '\x0c'

/-- Python `str.strip()`: drop leading and trailing whitespace. -/
def pyStrip (s : String) : String :=
  String.mk (((s.data.dropWhile isPySpace).reverse.dropWhile isPySpace).reverse)

/-- Fold a digit list into a natural number. -/
def digitsVal (l : List Char) : Nat :=
  l.foldl (fun a c => a * 10 + (c.toNat - 48)) 0

/-- Parse a nonempty all-digit character list. -/
def parseDigits (l : List Char) : Option Nat :=
  if l ≠ [] ∧ l.all Char.isDigit then some (digitsVal l) else none

/-- Parse an unsigned decimal numeral, with an optional fractional part. -/
def parseUnsigned (l : List Char) : Option Rat :=
  match l.splitOn '.' with
  | [w] => (parseDigits w).map (fun n => (n : Rat))
  | [w, f] =>
    match parseDigits w, parseDigits f with
    | some a, some b => some ((a : Rat) + (b : Rat) / ((10 : Rat) ^ f.length))
    | _, _ => none
  | _ => none

/-- Numeric reading of a snapshot string, as the exposition layer's
`float()` coercion would read it (sign, digits, optional fraction). -/
def parseNum (s : String) : Option Rat :=
  match s.data with
  | '-' :: rest => (parseUnsigned rest).map (fun q => -q)
  | '+' :: rest => parseUnsigned rest
  | l => parseUnsigned l

/-- The number a metric value denotes, when it denotes one: dedicated
records carry a number directly; a catalog record's raw string denotes a
number exactly when it parses as one. -/
def MetricVal.toNumber : MetricVal → Option Rat
  | .num q => some q
  | .raw s => parseNum s

/-- One emitted metric record (one `GaugeMetricFamily` with one sample). -/
structure MetricRecord where
  name : String
  help : String
  labels : List (String × String)
  value : MetricVal
  deriving DecidableEq, Repr

/-- `var.replace(".", "_")` of the source. -/
def replaceDots (s : String) : String :=
  String.mk (s.data.map (fun c => if c == '.' then '_' else c))

/-- The metric name built in the catalog loop of `collect`:
`"_".join(("nut", formatted_name, unit))` when `METRICS[var]["unit"]` is
truthy, `"_".join(("nut", formatted_name))` otherwise.  Python truthiness
makes an empty-string unit behave like no unit. -/
def formattedName (key : String) (e : CatalogEntry) : String :=
  match e.unit with
  | some u => if u == "" then "nut_" ++ replaceDots key
              else "nut_" ++ replaceDots key ++ "_" ++ u
  | none => "nut_" ++ replaceDots key

/-- An error ending a collection cycle: a failed fetch, or a `KeyError`
from a mandatory snapshot key access. -/
inductive CollectError where
  | fetchError (msg : String)
  | keyError (key : String)
  deriving DecidableEq, Repr

/-- The `nut_device_info` record (labels from raw manufacturer and model,
stripped serial; value `1`). -/
def infoRecord (mfr model serial : String) : MetricRecord :=
  { name := "nut_device_info", help := "information about the UPS",
    labels := [("manufacturer", mfr), ("model", model), ("serial", pyStrip serial)],
    value := .num 1 }

/-- The `nut_ups_status` record (label from the raw status value; value `1.0`). -/
def statusRecord (status : String) : MetricRecord :=
  { name := "nut_ups_status", help := "UPS status",
    labels := [("status", status)], value := .num 1 }

/-- The optional `nut_ups_beeper_status` record: present exactly when the
snapshot contains `ups.beeper.status`. -/
def beeperRecords (vars : Snapshot) : List MetricRecord :=
  match vars.get? "ups.beeper.status" with
  | some v => [{ name := "nut_ups_beeper_status", help := "UPS beeper status",
                 labels := [("status", v)], value := .num 1 }]
  | none => []

/-- The optional `nut_battery_charger_status` record: present exactly when
the snapshot contains `battery.charger.status`. -/
def chargerRecords (vars : Snapshot) : List MetricRecord :=
  match vars.get? "battery.charger.status" with
  | some v => [{ name := "nut_battery_charger_status", help := "Status of the battery charger",
                 labels := [("status", v)], value := .num 1 }]
  | none => []

/-- The record the catalog loop yields for one snapshot entry, if any:
a hit in `METRICS` produces a record with the derived name, the catalog
help text, and the snapshot's raw string as value (`value=client_vars[var]`,
no numeric check). -/
def catalogRecord (p : String × String) : Option MetricRecord :=
  match metricsLookup p.1 with
  | some e => some { name := formattedName p.1 e, help := e.help,
                     labels := [], value := .raw p.2 }
  | none => none

/-- All records of the catalog loop `for var in client_vars`, in snapshot
order. -/
def catalogRecords (vars : Snapshot) : List MetricRecord :=
  vars.filterMap catalogRecord

/-- The body of `collect` after a successful fetch.  The four mandatory
lookups happen, in source order, before any record is yielded; the yield
order is beeper, charger, catalog loop, info, status. -/
def collectVars (vars : Snapshot) : Except CollectError (List MetricRecord) :=
  match vars.get? "device.mfr" with
  | none => .error (.keyError "device.mfr")
  | some mfr =>
    match vars.get? "device.model" with
    | none => .error (.keyError "device.model")
    | some model =>
      match vars.get? "device.serial" with
      | none => .error (.keyError "device.serial")
      | some serial =>
        match vars.get? "ups.status" with
        | none => .error (.keyError "ups.status")
        | some status =>
          .ok (beeperRecords vars ++ chargerRecords vars ++ catalogRecords vars ++
               [infoRecord mfr model serial, statusRecord status])

/-- `NUTCollector.collect`: fetch the snapshot via the external client,
then derive the record list.  A fetch failure or a mandatory-key
`KeyError` ends the cycle with no records. -/
def collect (fetch : Except String Snapshot) : Except CollectError (List MetricRecord) :=
  match fetch with
  | .error msg => .error (.fetchError msg)
  | .ok vars => collectVars vars

/-- The naming rule as the spec states it (§4.1): replace every `.` of the
key with `_`, prepend the `nut` namespace token, and append `_` and the
unit exactly when a unit is present. -/
def specMetricName (key : String) (unit : Option String) : String :=
  match unit with
  | some u => "nut_" ++ replaceDots key ++ "_" ++ u
  | none => "nut_" ++ replaceDots key

/-- The names of the four dedicated (non-catalog) metric records. -/
def dedicatedNames : List String :=
  ["nut_device_info", "nut_ups_status", "nut_ups_beeper_status",
   "nut_battery_charger_status"]

/-- The snapshot keys handled outside the generic catalog path. -/
def dedicatedKeys : List String :=
  ["device.mfr", "device.model", "device.serial", "ups.status",
   "ups.beeper.status", "battery.charger.status"]

/-- Characters allowed by the spec invariant on units: lowercase letters
only (in particular no quote characters and no punctuation). -/
def isLowerLetter (c : Char) : Bool :=
  97 ≤ c.toNat && c.toNat ≤ 122

/-- Modelled from the spec: the port default of the external PyNUTClient
constructor, which is absent from this repository (the `nut2` client is an
external collaborator); the spec fixes the daemon-port default at 3493
(§6, `NUT_PORT`). -/
def pynutDefaultPort : Nat := 3493

/-- The daemon port the program is configured with:
`os.environ.get("NUT_PORT") or 3493`, with Python truthiness (an unset or
empty variable falls back to the integer 3493, otherwise the string is
kept). -/
def configuredNutPort (envNutPort : Option String) : Sum String Nat :=
  match envNutPort with
  | some v => if v == "" then Sum.inr 3493 else Sum.inl v
  | none => Sum.inr 3493

/-- The port the outbound daemon connection of one `collect()` call
actually uses: the client is constructed as `PyNUTClient(self._host)` with
no port argument, so the connection always uses the client's default port,
whatever the environment says. -/
def connectionPort (_envNutPort : Option String) : Nat := pynutDefaultPort

/-- The example snapshot of spec §8. -/
def exampleSnapshot : Snapshot :=
  [("device.mfr", "APC"), ("device.model", "X"), ("device.serial", "12345 "),
   ("ups.status", "OL"), ("ups.load", "42"), ("battery.charge", "90")]

/-- The record list `collect` emits for `exampleSnapshot`. -/
def exampleRecords : List MetricRecord :=
  [{ name := "nut_ups_load_percent", help := "Load on UPS", labels := [],
     value := .raw "42" },
   { name := "nut_battery_charge_percent", help := "Battery charge", labels := [],
     value := .raw "90" },
   { name := "nut_device_info", help := "information about the UPS",
     labels := [("manufacturer", "APC"), ("model", "X"), ("serial", "12345")],
     value := .num 1 },
   { name := "nut_ups_status", help := "UPS status", labels := [("status", "OL")],
     value := .num 1 }]

/-- The §8 scenario snapshot with `device.serial` removed. -/
def snapshotNoSerial : Snapshot :=
  [("device.mfr", "APC"), ("device.model", "X"),
   ("ups.status", "OL"), ("ups.load", "42"), ("battery.charge", "90")]

/-- A snapshot holding the three identity keys but not `ups.status`. -/
def snapshotNoStatus : Snapshot :=
  [("device.mfr", "APC"), ("device.model", "X"), ("device.serial", " AB123 ")]

/-- A snapshot holding `ups.status` but none of the identity keys. -/
def snapshotOnlyStatus : Snapshot := [("ups.status", "OL")]

/-- A snapshot in which the catalog key `ups.load` carries a value that is
not a number. -/
def snapshotNonNumeric : Snapshot :=
  [("device.mfr", "APC"), ("device.model", "X"), ("device.serial", "S1"),
   ("ups.status", "OL"), ("ups.load", "notanumber"), ("battery.charge", "90")]

/-- The example snapshot extended with a key absent from the catalog. -/
def exampleSnapshotUnknown : Snapshot :=
  exampleSnapshot ++ [("foo.bar", "7")]

/-- A snapshot whose identity values carry surrounding whitespace. -/
def snapshotPadded : Snapshot :=
  [("device.mfr", "APC "), ("device.model", " X"), ("device.serial", " AB123 "),
   ("ups.status", "OL")]

/-- A snapshot with the beeper-status key present and the charger-status
key absent. -/
def snapshotBeeper : Snapshot :=
  [("device.mfr", "APC"), ("device.model", "X"), ("device.serial", "S1"),
   ("ups.status", "OL"), ("ups.beeper.status", "enabled")]

end NutExporter

namespace NutExporter

/-! ### Facts about the static catalog, established by evaluation -/

theorem metrics_keys_nodup : (METRICS.map Prod.fst).Nodup := by decide

theorem metrics_names_nodup :
    (METRICS.map (fun p => formattedName p.1 p.2)).Nodup := by decide

theorem metrics_no_empty_unit : ∀ p ∈ METRICS, ¬ p.2.unit = some "" := by decide

theorem metrics_names_not_dedicated :
    ∀ p ∈ METRICS, ¬ formattedName p.1 p.2 ∈ dedicatedNames := by decide

/-! ### Lookup lemmas -/

theorem metricsLookup_mem {k : String} {e : CatalogEntry}
    (h : metricsLookup k = some e) : (k, e) ∈ METRICS := by
  unfold metricsLookup at h
  cases hf : METRICS.find? (fun p => p.1 == k) with
  | none => rw [hf] at h; exact absurd h (by simp)
  | some p =>
    rw [hf] at h
    have hp := List.find?_some hf
    have hm : p ∈ METRICS := List.mem_of_find?_eq_some hf
    have h1 : p.1 = k := by simpa using hp
    have h2 : p.2 = e := by simpa using h
    have : p = (k, e) := Prod.ext h1 h2
    exact this ▸ hm

theorem snapshot_get_mem {s : Snapshot} {k v : String}
    (h : Snapshot.get? s k = some v) : (k, v) ∈ s := by
  unfold Snapshot.get? at h
  cases hf : s.find? (fun p => p.1 == k) with
  | none => rw [hf] at h; exact absurd h (by simp)
  | some p =>
    rw [hf] at h
    have hp := List.find?_some hf
    have hm : p ∈ s := List.mem_of_find?_eq_some hf
    have h1 : p.1 = k := by simpa using hp
    have h2 : p.2 = v := by simpa using h
    have : p = (k, v) := Prod.ext h1 h2
    exact this ▸ hm

theorem get?_cons (a : String × String) (rest : Snapshot) (k : String) :
    Snapshot.get? (a :: rest) k =
      if a.1 == k then some a.2 else Snapshot.get? rest k := by
  unfold Snapshot.get?
  rw [List.find?_cons]
  cases h : (a.1 == k) <;> simp [h]

/-! ### Shape of the records each piece of `collect` produces -/

theorem catalogRecord_eq_some {p : String × String} {r : MetricRecord}
    (h : catalogRecord p = some r) :
    ∃ e, metricsLookup p.1 = some e ∧
      r = { name := formattedName p.1 e, help := e.help, labels := [],
            value := .raw p.2 } := by
  unfold catalogRecord at h
  cases he : metricsLookup p.1 with
  | none => rw [he] at h; exact absurd h (by simp)
  | some e =>
    rw [he] at h
    exact ⟨e, rfl, (Option.some.inj h).symm⟩

theorem catalogRecord_name_not_dedicated {p : String × String} {r : MetricRecord}
    (h : catalogRecord p = some r) : ¬ r.name ∈ dedicatedNames := by
  obtain ⟨e, he, rfl⟩ := catalogRecord_eq_some h
  exact metrics_names_not_dedicated (p.1, e) (metricsLookup_mem he)

theorem filter_name_nil {l : List MetricRecord} {N : String}
    (h : ∀ r ∈ l, r.name ≠ N) : l.filter (fun r => r.name == N) = [] := by
  rw [List.filter_eq_nil_iff]
  intro r hr
  simpa using h r hr

theorem catalogRecords_filter_dedicated (vars : Snapshot) {N : String}
    (hN : N ∈ dedicatedNames) :
    (catalogRecords vars).filter (fun r => r.name == N) = [] := by
  apply filter_name_nil
  intro r hr hname
  rw [catalogRecords, List.mem_filterMap] at hr
  obtain ⟨p, _, hp⟩ := hr
  exact catalogRecord_name_not_dedicated hp (hname ▸ hN)

theorem beeperRecords_name (vars : Snapshot) :
    ∀ r ∈ beeperRecords vars, r.name = "nut_ups_beeper_status" := by
  intro r hr
  unfold beeperRecords at hr
  cases h : Snapshot.get? vars "ups.beeper.status" with
  | none => rw [h] at hr; exact absurd hr (by simp)
  | some v =>
    rw [h] at hr
    rw [List.mem_singleton] at hr
    rw [hr]

theorem chargerRecords_name (vars : Snapshot) :
    ∀ r ∈ chargerRecords vars, r.name = "nut_battery_charger_status" := by
  intro r hr
  unfold chargerRecords at hr
  cases h : Snapshot.get? vars "battery.charger.status" with
  | none => rw [h] at hr; exact absurd hr (by simp)
  | some v =>
    rw [h] at hr
    rw [List.mem_singleton] at hr
    rw [hr]

theorem collectVars_ok {vars : Snapshot} {m mo s st : String}
    (h1 : Snapshot.get? vars "device.mfr" = some m)
    (h2 : Snapshot.get? vars "device.model" = some mo)
    (h3 : Snapshot.get? vars "device.serial" = some s)
    (h4 : Snapshot.get? vars "ups.status" = some st) :
    collectVars vars = .ok (beeperRecords vars ++ chargerRecords vars ++
      catalogRecords vars ++ [infoRecord m mo s, statusRecord st]) := by
  unfold collectVars
  rw [h1, h2, h3, h4]

theorem collectVars_error_of_missing (vars : Snapshot)
    (h : Snapshot.get? vars "device.mfr" = none ∨
         Snapshot.get? vars "device.model" = none ∨
         Snapshot.get? vars "device.serial" = none ∨
         Snapshot.get? vars "ups.status" = none) :
    ∃ e, collectVars vars = .error e := by
  rcases h1 : Snapshot.get? vars "device.mfr" with _ | m
  · exact ⟨.keyError "device.mfr", by unfold collectVars; rw [h1]⟩
  rcases h2 : Snapshot.get? vars "device.model" with _ | mo
  · exact ⟨.keyError "device.model", by unfold collectVars; rw [h1, h2]⟩
  rcases h3 : Snapshot.get? vars "device.serial" with _ | s
  · exact ⟨.keyError "device.serial", by unfold collectVars; rw [h1, h2, h3]⟩
  rcases h4 : Snapshot.get? vars "ups.status" with _ | st
  · exact ⟨.keyError "ups.status", by unfold collectVars; rw [h1, h2, h3, h4]⟩
  rw [h1, h2, h3, h4] at h
  rcases h with h | h | h | h <;> exact absurd h (by simp)

theorem formattedName_inj {k1 k2 : String} {e1 e2 : CatalogEntry}
    (h1 : metricsLookup k1 = some e1) (h2 : metricsLookup k2 = some e2)
    (hne : k1 ≠ k2) : formattedName k1 e1 ≠ formattedName k2 e2 := by
  intro h
  have heq := List.inj_on_of_nodup_map metrics_names_nodup
    (metricsLookup_mem h1) (metricsLookup_mem h2) h
  exact hne (congrArg Prod.fst heq)

theorem catalogRecords_cons_none {a : String × String}
    (h : catalogRecord a = none) (l : Snapshot) :
    catalogRecords (a :: l) = catalogRecords l := by
  unfold catalogRecords
  rw [List.filterMap_cons_none h]

theorem catalogRecords_cons_some {a : String × String} {r : MetricRecord}
    (h : catalogRecord a = some r) (l : Snapshot) :
    catalogRecords (a :: l) = r :: catalogRecords l := by
  unfold catalogRecords
  rw [List.filterMap_cons_some h]

/-- In a unique-key snapshot holding the catalog key `k` with value `v`,
the catalog loop produces exactly one record with the derived name, and it
carries the catalog help text and the raw snapshot value. -/
theorem catalogRecords_filter_key {vars : Snapshot} {k v : String} {e : CatalogEntry}
    (hnd : (vars.map Prod.fst).Nodup)
    (hk : Snapshot.get? vars k = some v)
    (he : metricsLookup k = some e) :
    (catalogRecords vars).filter (fun r => r.name == formattedName k e) =
      [{ name := formattedName k e, help := e.help, labels := [],
         value := .raw v }] := by
  induction vars with
  | nil => exact absurd hk (by simp [Snapshot.get?])
  | cons a rest ih =>
    rw [List.map_cons, List.nodup_cons] at hnd
    obtain ⟨ha, hnd2⟩ := hnd
    rw [get?_cons] at hk
    by_cases hak : a.1 = k
    · rw [if_pos (by simp [hak])] at hk
      have hv : a.2 = v := Option.some.inj hk
      have hca : catalogRecord a =
          some { name := formattedName k e, help := e.help, labels := [],
                 value := .raw v } := by
        unfold catalogRecord
        rw [hak, he, hv]
      rw [catalogRecords_cons_some hca, List.filter_cons, if_pos (by simp)]
      congr 1
      apply filter_name_nil
      intro r hr hname
      rw [catalogRecords, List.mem_filterMap] at hr
      obtain ⟨p, hpmem, hp⟩ := hr
      obtain ⟨e2, he2, rfl⟩ := catalogRecord_eq_some hp
      have hpk : p.1 ≠ k := by
        intro hh
        have hmap : p.1 ∈ rest.map Prod.fst := List.mem_map_of_mem Prod.fst hpmem
        rw [hh, ← hak] at hmap
        exact ha hmap
      exact formattedName_inj he2 he hpk hname
    · rw [if_neg (by simp [hak])] at hk
      cases hca : catalogRecord a with
      | none => rw [catalogRecords_cons_none hca]; exact ih hnd2 hk
      | some r0 =>
        rw [catalogRecords_cons_some hca, List.filter_cons]
        obtain ⟨e0, he0, rfl⟩ := catalogRecord_eq_some hca
        rw [if_neg (by simpa using formattedName_inj he0 he hak)]
        exact ih hnd2 hk

/-! ### Stability of `collect` under removal of an unrecognized key -/

theorem get?_filter_ne {vars : Snapshot} {k k2 : String} (h : k2 ≠ k) :
    Snapshot.get? (vars.filter (fun p => p.1 != k)) k2 = Snapshot.get? vars k2 := by
  induction vars with
  | nil => rfl
  | cons a rest ih =>
    rw [List.filter_cons]
    by_cases hak : a.1 = k
    · rw [if_neg (by simp [hak])]
      rw [ih, get?_cons, if_neg (by simp [hak]; exact fun hh => h hh.symm)]
    · rw [if_pos (by simp [hak])]
      rw [get?_cons, get?_cons, ih]

theorem catalogRecords_filter_unknown {vars : Snapshot} {k : String}
    (h : metricsLookup k = none) :
    catalogRecords (vars.filter (fun p => p.1 != k)) = catalogRecords vars := by
  induction vars with
  | nil => rfl
  | cons a rest ih =>
    rw [List.filter_cons]
    by_cases hak : a.1 = k
    · rw [if_neg (by simp [hak])]
      have hca : catalogRecord a = none := by
        unfold catalogRecord
        rw [hak, h]
      rw [ih, catalogRecords_cons_none hca]
    · rw [if_pos (by simp [hak])]
      cases hca : catalogRecord a with
      | none => rw [catalogRecords_cons_none hca, catalogRecords_cons_none hca, ih]
      | some r0 =>
        rw [catalogRecords_cons_some hca, catalogRecords_cons_some hca, ih]

theorem beeperRecords_congr {v1 v2 : Snapshot}
    (h : Snapshot.get? v1 "ups.beeper.status" =
         Snapshot.get? v2 "ups.beeper.status") :
    beeperRecords v1 = beeperRecords v2 := by
  unfold beeperRecords
  rw [h]

theorem chargerRecords_congr {v1 v2 : Snapshot}
    (h : Snapshot.get? v1 "battery.charger.status" =
         Snapshot.get? v2 "battery.charger.status") :
    chargerRecords v1 = chargerRecords v2 := by
  unfold chargerRecords
  rw [h]

theorem collectVars_congr {v1 v2 : Snapshot}
    (hm : Snapshot.get? v1 "device.mfr" = Snapshot.get? v2 "device.mfr")
    (hmo : Snapshot.get? v1 "device.model" = Snapshot.get? v2 "device.model")
    (hs : Snapshot.get? v1 "device.serial" = Snapshot.get? v2 "device.serial")
    (hst : Snapshot.get? v1 "ups.status" = Snapshot.get? v2 "ups.status")
    (hb : beeperRecords v1 = beeperRecords v2)
    (hc : chargerRecords v1 = chargerRecords v2)
    (hcat : catalogRecords v1 = catalogRecords v2) :
    collectVars v1 = collectVars v2 := by
  unfold collectVars
  rw [hm, hmo, hs, hst, hb, hc, hcat]

/-- A successful `collectVars` pins down the four mandatory key values and
the shape of the emitted record list. -/
theorem collectVars_ok_inv {vars : Snapshot} {recs : List MetricRecord}
    (h : collectVars vars = .ok recs) :
    ∃ m mo s st, Snapshot.get? vars "device.mfr" = some m ∧
      Snapshot.get? vars "device.model" = some mo ∧
      Snapshot.get? vars "device.serial" = some s ∧
      Snapshot.get? vars "ups.status" = some st ∧
      recs = beeperRecords vars ++ chargerRecords vars ++ catalogRecords vars ++
        [infoRecord m mo s, statusRecord st] := by
  rcases h1 : Snapshot.get? vars "device.mfr" with _ | m
  · rw [show collectVars vars = .error (.keyError "device.mfr") from
      by unfold collectVars; rw [h1]] at h
    exact absurd h (by simp)
  rcases h2 : Snapshot.get? vars "device.model" with _ | mo
  · rw [show collectVars vars = .error (.keyError "device.model") from
      by unfold collectVars; rw [h1, h2]] at h
    exact absurd h (by simp)
  rcases h3 : Snapshot.get? vars "device.serial" with _ | s
  · rw [show collectVars vars = .error (.keyError "device.serial") from
      by unfold collectVars; rw [h1, h2, h3]] at h
    exact absurd h (by simp)
  rcases h4 : Snapshot.get? vars "ups.status" with _ | st
  · rw [show collectVars vars = .error (.keyError "ups.status") from
      by unfold collectVars; rw [h1, h2, h3, h4]] at h
    exact absurd h (by simp)
  rw [collectVars_ok h1 h2 h3 h4] at h
  exact ⟨m, mo, s, st, rfl, rfl, rfl, rfl, (Except.ok.inj h).symm⟩

/-- The beeper, charger, info and status records all have dedicated names,
so a name drawn from the catalog filters them out. -/
theorem dedicated_filter_nil {vars : Snapshot} {m mo s st : String} {N : String}
    (hN : ¬ N ∈ dedicatedNames) :
    (beeperRecords vars).filter (fun r => r.name == N) = [] ∧
    (chargerRecords vars).filter (fun r => r.name == N) = [] ∧
    ([infoRecord m mo s, statusRecord st]).filter (fun r => r.name == N) = [] := by
  refine ⟨filter_name_nil ?_, filter_name_nil ?_, filter_name_nil ?_⟩
  · intro r hr hh
    rw [beeperRecords_name vars r hr] at hh
    exact hN (hh ▸ (by decide : "nut_ups_beeper_status" ∈ dedicatedNames))
  · intro r hr hh
    rw [chargerRecords_name vars r hr] at hh
    exact hN (hh ▸ (by decide : "nut_battery_charger_status" ∈ dedicatedNames))
  · intro r hr hh
    rw [List.mem_cons, List.mem_singleton] at hr
    rcases hr with rfl | rfl
    · exact hN (hh ▸ (by decide : "nut_device_info" ∈ dedicatedNames))
    · exact hN (hh ▸ (by decide : "nut_ups_status" ∈ dedicatedNames))

/-! ### The claims -/

/-- C1: for every snapshot key `K` present in both the snapshot and the
metric catalog, the successful `collect()` emits exactly one record for
`K`; its name replaces every `.` of `K` with `_`, prefixes the `nut`
namespace token, and appends `_` and the unit verbatim exactly when the
catalog entry has a unit; its help text is the catalog description and its
value is the snapshot's value for `K`, read as the number it denotes. -/
theorem catalog_metric_name_help_value (snap : Snapshot) (k v : String)
    (e : CatalogEntry) (recs : List MetricRecord) (q : Rat)
    (hnd : (snap.map Prod.fst).Nodup)
    (hk : Snapshot.get? snap k = some v)
    (he : metricsLookup k = some e)
    (hok : collect (.ok snap) = .ok recs)
    (hq : parseNum v = some q) :
    recs.filter (fun r => r.name == specMetricName k e.unit) =
      [{ name := specMetricName k e.unit, help := e.help, labels := [],
         value := .raw v }] ∧
    MetricVal.toNumber (.raw v) = some q := by
  have hu : ¬ e.unit = some "" := metrics_no_empty_unit (k, e) (metricsLookup_mem he)
  have hname : formattedName k e = specMetricName k e.unit := by
    cases he2 : e.unit with
    | none => unfold formattedName specMetricName; rw [he2]
    | some u =>
      rw [he2] at hu
      have hu2 : (u == "") = false := by
        simp only [beq_eq_false_iff_ne, ne_eq]
        exact fun hh => hu (congrArg some hh)
      unfold formattedName specMetricName
      rw [he2]
      simp [hu2]
  have hnotded : ¬ formattedName k e ∈ dedicatedNames :=
    metrics_names_not_dedicated (k, e) (metricsLookup_mem he)
  refine ⟨?_, hq⟩
  obtain ⟨m, mo, s, st, h1, h2, h3, h4, hrecs⟩ := collectVars_ok_inv hok
  subst hrecs
  rw [← hname]
  obtain ⟨hb, hc, hl⟩ :=
    @dedicated_filter_nil snap m mo s st (formattedName k e) hnotded
  rw [List.filter_append, List.filter_append, List.filter_append,
    hb, hc, hl, catalogRecords_filter_key hnd hk he]
  simp

/-- Witness for C1: the §8 example snapshot, key `ups.load` with unit
`percent` and value `"42"`, denoting the number 42. -/
theorem catalog_metric_name_help_value_witness :
    exampleRecords.filter
        (fun r => r.name == specMetricName "ups.load"
          (CatalogEntry.mk (some "percent") "Load on UPS").unit) =
      [{ name := specMetricName "ups.load"
           (CatalogEntry.mk (some "percent") "Load on UPS").unit,
         help := (CatalogEntry.mk (some "percent") "Load on UPS").help,
         labels := [], value := .raw "42" }] ∧
    MetricVal.toNumber (.raw "42") = some 42 :=
  catalog_metric_name_help_value exampleSnapshot "ups.load" "42"
    (CatalogEntry.mk (some "percent") "Load on UPS") exampleRecords 42
    (by decide) (by decide) (by decide) rfl (by decide)

/-- C2: a failed fetch, or a fetched snapshot missing one of the four
mandatory keys, makes `collect()` fail with an observable error and emit
no metric records at all. -/
theorem collect_failure_emits_nothing (fetch : Except String Snapshot)
    (h : (∃ msg, fetch = .error msg) ∨
         ∃ snap, fetch = .ok snap ∧
           (Snapshot.get? snap "device.mfr" = none ∨
            Snapshot.get? snap "device.model" = none ∨
            Snapshot.get? snap "device.serial" = none ∨
            Snapshot.get? snap "ups.status" = none)) :
    ∃ err, collect fetch = .error err ∧ ∀ recs, ¬ collect fetch = .ok recs := by
  rcases h with ⟨msg, rfl⟩ | ⟨snap, rfl, hmiss⟩
  · refine ⟨.fetchError msg, rfl, fun recs hh => ?_⟩
    rw [show collect (.error msg) = .error (.fetchError msg) from rfl] at hh
    exact Except.noConfusion hh
  · obtain ⟨e, he⟩ := collectVars_error_of_missing snap hmiss
    refine ⟨e, he, fun recs hh => ?_⟩
    rw [show collect (.ok snap) = collectVars snap from rfl, he] at hh
    exact Except.noConfusion hh

/-- Witness for C2: the §8 scenario snapshot with `device.serial`
missing. -/
theorem collect_failure_emits_nothing_witness :
    ∃ err, collect (.ok snapshotNoSerial) = .error err ∧
      ∀ recs, ¬ collect (.ok snapshotNoSerial) = .ok recs :=
  collect_failure_emits_nothing (.ok snapshotNoSerial)
    (Or.inr ⟨snapshotNoSerial, rfl, Or.inr (Or.inr (Or.inl (by decide)))⟩)

/-- C6: a snapshot key with no catalog entry that is none of the dedicated
identity/status keys contributes nothing: removing all its entries from
the snapshot leaves the output of `collect()` unchanged, so no emitted
record derives from it. -/
theorem unknown_key_produces_no_record (snap : Snapshot) (k : String)
    (hcat : metricsLookup k = none) (hded : ¬ k ∈ dedicatedKeys) :
    collect (.ok (snap.filter (fun p => p.1 != k))) = collect (.ok snap) := by
  have hne : ∀ k2, k2 ∈ dedicatedKeys → k2 ≠ k := fun k2 hk2 he => hded (he ▸ hk2)
  exact collectVars_congr
    (get?_filter_ne (hne "device.mfr" (by decide)))
    (get?_filter_ne (hne "device.model" (by decide)))
    (get?_filter_ne (hne "device.serial" (by decide)))
    (get?_filter_ne (hne "ups.status" (by decide)))
    (beeperRecords_congr (get?_filter_ne (hne "ups.beeper.status" (by decide))))
    (chargerRecords_congr (get?_filter_ne (hne "battery.charger.status" (by decide))))
    (catalogRecords_filter_unknown hcat)

/-- Witness for C6: adding the made-up key `foo.bar` to the §8 example
snapshot changes nothing. -/
theorem unknown_key_produces_no_record_witness :
    collect (.ok (exampleSnapshotUnknown.filter (fun p => p.1 != "foo.bar"))) =
      collect (.ok exampleSnapshotUnknown) :=
  unknown_key_produces_no_record exampleSnapshotUnknown "foo.bar"
    (by decide) (by decide)

/-- C8 (code bug): the daemon connection of `collect()` is opened with
`PyNUTClient(self._host)` and no port argument, so it always uses the
client's default port 3493; the configured `NUT_PORT` value — here
`"1234"` — is read at startup but never reaches the connection. -/
theorem nut_port_not_used :
    connectionPort (some "1234") = 3493 ∧
    configuredNutPort (some "1234") = Sum.inl "1234" ∧
    (∀ p1 p2 : Option String, connectionPort p1 = connectionPort p2) ∧
    configuredNutPort none = Sum.inr 3493 :=
  ⟨rfl, rfl, fun _ _ => rfl, rfl⟩

theorem filter_beeper_ne {vars : Snapshot} {N : String}
    (h : ¬ N = "nut_ups_beeper_status") :
    (beeperRecords vars).filter (fun r => r.name == N) = [] :=
  filter_name_nil (fun r hr hh =>
    h (by rw [← hh]; exact beeperRecords_name vars r hr))

theorem filter_charger_ne {vars : Snapshot} {N : String}
    (h : ¬ N = "nut_battery_charger_status") :
    (chargerRecords vars).filter (fun r => r.name == N) = [] :=
  filter_name_nil (fun r hr hh =>
    h (by rw [← hh]; exact chargerRecords_name vars r hr))

/-- C3 counterexample: this snapshot contains the three device-identity
keys, yet `collect()` raises a `KeyError` on the absent `ups.status`
before yielding anything, so no `nut_device_info` record is emitted. -/
theorem device_info_needs_status_cex :
    collect (.ok snapshotNoStatus) = .error (.keyError "ups.status") ∧
    ¬ ∃ recs, collect (.ok snapshotNoStatus) = .ok recs ∧
        (recs.filter (fun r => r.name == "nut_device_info")).length = 1 := by
  have h : collect (.ok snapshotNoStatus) = .error (.keyError "ups.status") := rfl
  refine ⟨h, fun hh => ?_⟩
  obtain ⟨recs, hok, _⟩ := hh
  rw [h] at hok
  exact Except.noConfusion hok

/-- C3 (amended): for every snapshot containing the three device-identity
keys and the overall status key, `collect()` emits exactly one record
named `nut_device_info` with value 1, manufacturer and model labels from
the snapshot and the serial label stripped of surrounding whitespace. -/
theorem device_info_record (snap : Snapshot) (m mo s st : String)
    (h1 : Snapshot.get? snap "device.mfr" = some m)
    (h2 : Snapshot.get? snap "device.model" = some mo)
    (h3 : Snapshot.get? snap "device.serial" = some s)
    (h4 : Snapshot.get? snap "ups.status" = some st) :
    ∃ recs, collect (.ok snap) = .ok recs ∧
      recs.filter (fun r => r.name == "nut_device_info") =
        [{ name := "nut_device_info", help := "information about the UPS",
           labels := [("manufacturer", m), ("model", mo), ("serial", pyStrip s)],
           value := .num 1 }] := by
  refine ⟨_, collectVars_ok h1 h2 h3 h4, ?_⟩
  rw [List.filter_append, List.filter_append, List.filter_append,
    filter_beeper_ne (by decide), filter_charger_ne (by decide),
    catalogRecords_filter_dedicated snap (by decide)]
  simp [infoRecord, statusRecord]

/-- Witness for C3 (amended): raw serial `" AB123 "` yields the label
`AB123`; the padded manufacturer and model pass through. -/
theorem device_info_record_witness :
    ∃ recs, collect (.ok snapshotPadded) = .ok recs ∧
      recs.filter (fun r => r.name == "nut_device_info") =
        [{ name := "nut_device_info", help := "information about the UPS",
           labels := [("manufacturer", "APC "), ("model", " X"),
                      ("serial", "AB123")],
           value := .num 1 }] :=
  device_info_record snapshotPadded "APC " " X" " AB123 " "OL"
    (by decide) (by decide) (by decide) (by decide)

/-- C4 counterexample: this snapshot contains the overall status key, yet
`collect()` raises a `KeyError` on the absent `device.mfr` before yielding
anything, so no `nut_ups_status` record is emitted. -/
theorem ups_status_needs_identity_cex :
    collect (.ok snapshotOnlyStatus) = .error (.keyError "device.mfr") ∧
    ¬ ∃ recs, collect (.ok snapshotOnlyStatus) = .ok recs ∧
        (recs.filter (fun r => r.name == "nut_ups_status")).length = 1 := by
  have h : collect (.ok snapshotOnlyStatus) = .error (.keyError "device.mfr") := rfl
  refine ⟨h, fun hh => ?_⟩
  obtain ⟨recs, hok, _⟩ := hh
  rw [h] at hok
  exact Except.noConfusion hok

/-- C4 (amended): for every snapshot containing the overall status key and
the three device-identity keys, `collect()` emits exactly one record named
`nut_ups_status` with value 1.0 and the raw status value as its `status`
label; and a snapshot missing the status key fails the whole cycle. -/
theorem ups_status_record (snap : Snapshot) (m mo s st : String)
    (h1 : Snapshot.get? snap "device.mfr" = some m)
    (h2 : Snapshot.get? snap "device.model" = some mo)
    (h3 : Snapshot.get? snap "device.serial" = some s)
    (h4 : Snapshot.get? snap "ups.status" = some st) :
    (∃ recs, collect (.ok snap) = .ok recs ∧
      recs.filter (fun r => r.name == "nut_ups_status") =
        [{ name := "nut_ups_status", help := "UPS status",
           labels := [("status", st)], value := .num 1 }]) ∧
    (∀ snap2 : Snapshot, Snapshot.get? snap2 "ups.status" = none →
      ∃ err, collect (.ok snap2) = .error err) := by
  constructor
  · refine ⟨_, collectVars_ok h1 h2 h3 h4, ?_⟩
    rw [List.filter_append, List.filter_append, List.filter_append,
      filter_beeper_ne (by decide), filter_charger_ne (by decide),
      catalogRecords_filter_dedicated snap (by decide)]
    simp [infoRecord, statusRecord]
  · intro snap2 hmiss
    exact collectVars_error_of_missing snap2 (Or.inr (Or.inr (Or.inr hmiss)))

/-- Witness for C4 (amended) at the padded snapshot (`ups.status` =
`"OL"`). -/
theorem ups_status_record_witness :
    (∃ recs, collect (.ok snapshotPadded) = .ok recs ∧
      recs.filter (fun r => r.name == "nut_ups_status") =
        [{ name := "nut_ups_status", help := "UPS status",
           labels := [("status", "OL")], value := .num 1 }]) ∧
    (∀ snap2 : Snapshot, Snapshot.get? snap2 "ups.status" = none →
      ∃ err, collect (.ok snap2) = .error err) :=
  ups_status_record snapshotPadded "APC " " X" " AB123 " "OL"
    (by decide) (by decide) (by decide) (by decide)

/-- C5: on a successful `collect()`, the `nut_ups_beeper_status` record is
present (value 1.0, `status` label = the snapshot value) exactly when the
snapshot contains `ups.beeper.status`, and independently the
`nut_battery_charger_status` record is present exactly when the snapshot
contains `battery.charger.status`; the cycle succeeds either way, so
absence of either key is not an error. -/
theorem optional_status_records (snap : Snapshot) (m mo s st : String)
    (h1 : Snapshot.get? snap "device.mfr" = some m)
    (h2 : Snapshot.get? snap "device.model" = some mo)
    (h3 : Snapshot.get? snap "device.serial" = some s)
    (h4 : Snapshot.get? snap "ups.status" = some st) :
    ∃ recs, collect (.ok snap) = .ok recs ∧
      recs.filter (fun r => r.name == "nut_ups_beeper_status") =
        (match Snapshot.get? snap "ups.beeper.status" with
         | some v => [{ name := "nut_ups_beeper_status",
                        help := "UPS beeper status",
                        labels := [("status", v)], value := .num 1 }]
         | none => []) ∧
      recs.filter (fun r => r.name == "nut_battery_charger_status") =
        (match Snapshot.get? snap "battery.charger.status" with
         | some v => [{ name := "nut_battery_charger_status",
                        help := "Status of the battery charger",
                        labels := [("status", v)], value := .num 1 }]
         | none => []) := by
  refine ⟨_, collectVars_ok h1 h2 h3 h4, ?_, ?_⟩
  · rw [List.filter_append, List.filter_append, List.filter_append,
      filter_charger_ne (by decide),
      catalogRecords_filter_dedicated snap (by decide)]
    have hlast : ([infoRecord m mo s, statusRecord st]).filter
        (fun r => r.name == "nut_ups_beeper_status") = [] := by
      simp [infoRecord, statusRecord]
    rw [hlast]
    unfold beeperRecords
    cases hb : Snapshot.get? snap "ups.beeper.status" <;> simp
  · rw [List.filter_append, List.filter_append, List.filter_append,
      filter_beeper_ne (by decide),
      catalogRecords_filter_dedicated snap (by decide)]
    have hlast : ([infoRecord m mo s, statusRecord st]).filter
        (fun r => r.name == "nut_battery_charger_status") = [] := by
      simp [infoRecord, statusRecord]
    rw [hlast]
    unfold chargerRecords
    cases hc : Snapshot.get? snap "battery.charger.status" <;> simp

/-- Witness for C5: the beeper key is present (record emitted with its
value) and the charger key is absent (no record, no error). -/
theorem optional_status_records_witness :
    ∃ recs, collect (.ok snapshotBeeper) = .ok recs ∧
      recs.filter (fun r => r.name == "nut_ups_beeper_status") =
        (match Snapshot.get? snapshotBeeper "ups.beeper.status" with
         | some v => [{ name := "nut_ups_beeper_status",
                        help := "UPS beeper status",
                        labels := [("status", v)], value := .num 1 }]
         | none => []) ∧
      recs.filter (fun r => r.name == "nut_battery_charger_status") =
        (match Snapshot.get? snapshotBeeper "battery.charger.status" with
         | some v => [{ name := "nut_battery_charger_status",
                        help := "Status of the battery charger",
                        labels := [("status", v)], value := .num 1 }]
         | none => []) :=
  optional_status_records snapshotBeeper "APC" "X" "S1" "OL"
    (by decide) (by decide) (by decide) (by decide)

/-- C7 counterexample: with `ups.load` bound to `"notanumber"`, the cycle
succeeds, the `nut_ups_load_percent` record is emitted carrying the raw
non-numeric string as its value, and the remaining records are emitted
too — so neither the skip policy nor the fail-the-cycle policy is applied,
and a record whose value is not a number is emitted. -/
theorem coercion_policy_cex :
    ∃ recs, collect (.ok snapshotNonNumeric) = .ok recs ∧
      (∃ r ∈ recs, r.name = "nut_ups_load_percent" ∧
        r.value = .raw "notanumber" ∧ r.value.toNumber = none) ∧
      (∃ r ∈ recs, r.name = "nut_battery_charge_percent") := by
  refine ⟨_, rfl, ?_, ?_⟩ <;> decide

/-- C7 (amended): `collect()` applies neither permitted policy; it makes
no numeric check and emits the record for a catalog-recognized key with
the snapshot's raw string as its value, whether or not that string denotes
a number, while the cycle succeeds. -/
theorem coercion_no_check (snap : Snapshot) (k v m mo s st : String)
    (e : CatalogEntry)
    (h1 : Snapshot.get? snap "device.mfr" = some m)
    (h2 : Snapshot.get? snap "device.model" = some mo)
    (h3 : Snapshot.get? snap "device.serial" = some s)
    (h4 : Snapshot.get? snap "ups.status" = some st)
    (hk : Snapshot.get? snap k = some v)
    (he : metricsLookup k = some e) :
    ∃ recs, collect (.ok snap) = .ok recs ∧
      ∃ r ∈ recs, r.name = formattedName k e ∧ r.value = .raw v := by
  have hmem : (k, v) ∈ snap := snapshot_get_mem hk
  have hca : catalogRecord (k, v) =
      some { name := formattedName k e, help := e.help, labels := [],
             value := .raw v } := by
    simp [catalogRecord, he]
  refine ⟨_, collectVars_ok h1 h2 h3 h4,
    { name := formattedName k e, help := e.help, labels := [],
      value := .raw v }, ?_, rfl, rfl⟩
  have hcat := List.mem_filterMap.mpr ⟨(k, v), hmem, hca⟩
  simp only [List.mem_append]
  exact Or.inl (Or.inr hcat)

/-- Witness for C7 (amended): the non-numeric `ups.load` value is emitted
verbatim. -/
theorem coercion_no_check_witness :
    ∃ recs, collect (.ok snapshotNonNumeric) = .ok recs ∧
      ∃ r ∈ recs,
        r.name = formattedName "ups.load"
          (CatalogEntry.mk (some "percent") "Load on UPS") ∧
        r.value = .raw "notanumber" :=
  coercion_no_check snapshotNonNumeric "ups.load" "notanumber"
    "APC" "X" "S1" "OL" (CatalogEntry.mk (some "percent") "Load on UPS")
    (by decide) (by decide) (by decide) (by decide) (by decide) (by decide)

/-- C9 (code bug): the catalog keys are unique, but the invariant on units
fails: the unit recorded for `device.uptime` contains literal quote
characters (it is not a lowercase token), and it is still used verbatim in
the derived metric name. -/
theorem catalog_unit_invariant_bug :
    (METRICS.map Prod.fst).Nodup ∧
    metricsLookup "device.uptime" =
      some ⟨some "\x27seconds\x27", "Device uptime"⟩ ∧
    ("\x27seconds\x27".data.all isLowerLetter) = false ∧
    formattedName "device.uptime" ⟨some "\x27seconds\x27", "Device uptime"⟩ =
      "nut_device_uptime_\x27seconds\x27" :=
  ⟨metrics_keys_nodup, by decide, by decide, by decide⟩

/-- C10: the identity record carries the manufacturer and model values
exactly as fetched — no stripping or other normalization — while the
serial alone is stripped. -/
theorem identity_labels_raw (snap : Snapshot) (m mo s st : String)
    (h1 : Snapshot.get? snap "device.mfr" = some m)
    (h2 : Snapshot.get? snap "device.model" = some mo)
    (h3 : Snapshot.get? snap "device.serial" = some s)
    (h4 : Snapshot.get? snap "ups.status" = some st) :
    ∃ recs, collect (.ok snap) = .ok recs ∧
      infoRecord m mo s ∈ recs ∧
      (infoRecord m mo s).labels =
        [("manufacturer", m), ("model", mo), ("serial", pyStrip s)] := by
  refine ⟨_, collectVars_ok h1 h2 h3 h4, ?_, rfl⟩
  simp [List.mem_append]

/-- Witness for C10: padded manufacturer `"APC "` and model `" X"` appear
in the labels unchanged; the serial alone is stripped. -/
theorem identity_labels_raw_witness :
    ∃ recs, collect (.ok snapshotPadded) = .ok recs ∧
      infoRecord "APC " " X" " AB123 " ∈ recs ∧
      (infoRecord "APC " " X" " AB123 ").labels =
        [("manufacturer", "APC "), ("model", " X"), ("serial", "AB123")] :=
  identity_labels_raw snapshotPadded "APC " " X" " AB123 " "OL"
    (by decide) (by decide) (by decide) (by decide)

end NutExporter
